import Mathlib

/-!
Shallow embedding of `src/denoise_audio_DeepFilterNet.py`, a command-line
tool that denoises one audio file with a pretrained DeepFilterNet model,
optionally resampling the input via an external ffmpeg process first.

The script's own logic is argument parsing, output-path construction,
sample-rate probing, the ffmpeg resampling subprocess, and cleanup of the
temporary resampled file.  We model the filesystem as the list of existing
file paths, and every external call (ffmpeg availability, the resampling
subprocess, `torchaudio.info`, `init_df`, `load_audio`, `enhance`,
`save_audio`) as an oracle recorded in an `Env` value: each oracle field
says whether that call succeeds and what it returns, so one `Env` fixes one
concrete execution of the script.  File writes and removals are recorded in
an effect trace.
-/

set_option autoImplicit false
set_option linter.unusedVariables false

namespace DenoiseDFN

/-- A `pathlib.Path`-style file path, split the way the script uses it:
parent directory, stem, and extension (`.suffix` in pathlib, including the
leading dot).  Line 121 of the script only ever reads these three parts. -/
structure FPath where
  parent : String
  stem : String
  suffix : String
deriving DecidableEq, Repr

/-- The file name part of a path: stem followed by the extension. -/
def FPath.fileName (p : FPath) : String := p.stem ++ p.suffix

/-- Line 121: `output_path = input_path.parent /
f"{input_path.stem}_denoise_DeepFilterNet{input_path.suffix}"`. -/
def outputPathOf (ip : FPath) : FPath :=
  { parent := ip.parent, stem := ip.stem ++ "_denoise_DeepFilterNet", suffix := ip.suffix }

/-- A filesystem effect of the script: creating or writing a file, or
removing one (`os.remove`). -/
inductive Effect where
  | write (p : FPath)
  | remove (p : FPath)
deriving DecidableEq, Repr

/-- Remove a path from the filesystem (the effect of `os.remove`). -/
def removeFile (fs : List FPath) (p : FPath) : List FPath :=
  fs.filter (fun q => decide (q ≠ p))

/-- Oracle for one concrete execution: the outcome of every external call
the script makes, in the order the script can make them. -/
structure Env where
  /-- Line 63: does `subprocess.run(["ffmpeg", "-version"], ...)` succeed?
  `false` covers both `FileNotFoundError` (no executable) and
  `CalledProcessError` (version check fails), which line 64 catches. -/
  ffmpegAvailable : Bool
  /-- Directory in which `tempfile.NamedTemporaryFile` creates its file. -/
  tempDir : String
  /-- Random stem `tempfile.NamedTemporaryFile` chooses for its file. -/
  tempStem : String
  /-- Line 83: does the ffmpeg resampling subprocess succeed? -/
  ffmpegRunOk : Bool
  /-- Line 137: the sample rate `torchaudio.info` reports, or `none` if it
  raises (line 139). -/
  probedSr : Option Int
  /-- Line 132: the model sample rate `df_state.sr()` after `init_df`
  succeeds, or `none` if `init_df` raises.  A sample rate is a count of
  frames per second, hence a natural number. -/
  initDfSr : Option Nat
  /-- Line 160: does `load_audio` succeed? -/
  loadOk : Bool
  /-- Line 166: does `enhance` succeed? -/
  enhanceOk : Bool
  /-- Line 171: does `save_audio` succeed? -/
  saveOk : Bool
deriving DecidableEq, Repr

/-- The path `tempfile.NamedTemporaryFile(suffix=input_path.suffix,
delete=False)` creates (line 70): a fresh name in the temp directory, with
the input's extension. -/
def mkTemp (env : Env) (input_path : FPath) : FPath :=
  { parent := env.tempDir, stem := env.tempStem, suffix := input_path.suffix }

/-- Result of `resample_with_ffmpeg`: the returned value (`Path | None`),
the filesystem afterwards, and the effects performed. -/
structure ResampleResult where
  ret : Option FPath
  fs : List FPath
  trace : List Effect
deriving DecidableEq, Repr

/-- Lines 50-90, `resample_with_ffmpeg(input_path, target_sr)`:
if the ffmpeg availability check fails, return `None` at once (lines
61-66); otherwise create the named temporary file (lines 70-71), run the
resampling command writing to it (lines 73-83), and return the temp path on
success; on `CalledProcessError` remove the temp file if it exists and
return `None` (lines 86-90). -/
def resample_with_ffmpeg (env : Env) (fs : List FPath) (input_path : FPath)
    (target_sr : Nat) : ResampleResult :=
  if env.ffmpegAvailable then
    let temp_path := mkTemp env input_path
    let fs1 := temp_path :: fs
    let tr1 := [Effect.write temp_path]
    if env.ffmpegRunOk then
      { ret := some temp_path, fs := fs1, trace := tr1 ++ [Effect.write temp_path] }
    else
      if temp_path ∈ fs1 then
        { ret := none, fs := removeFile fs1 temp_path,
          trace := tr1 ++ [Effect.write temp_path, Effect.remove temp_path] }
      else
        { ret := none, fs := fs1, trace := tr1 ++ [Effect.write temp_path] }
  else
    { ret := none, fs := fs, trace := [] }

/-- The three values accepted by the `choices=` list of the `--model`
option (lines 103-114). -/
inductive ModelName where
  | DeepFilterNet
  | DeepFilterNet2
  | DeepFilterNet3
deriving DecidableEq, Repr

/-- Line 107: `choices=["DeepFilterNet", "DeepFilterNet2", "DeepFilterNet3"]`. -/
def modelChoices : List String := ["DeepFilterNet", "DeepFilterNet2", "DeepFilterNet3"]

/-- Map a `--model` string to its variant, `none` when it is not one of the
three choices (argparse then rejects it). -/
def parseModel : String → Option ModelName
  | "DeepFilterNet" => some ModelName.DeepFilterNet
  | "DeepFilterNet2" => some ModelName.DeepFilterNet2
  | "DeepFilterNet3" => some ModelName.DeepFilterNet3
  | _ => none

/-- The raw command line: the positional `input_path` argument and the
optional `--model` (`-m`) argument (absent when omitted). -/
structure Cli where
  input_path : FPath
  model_arg : Option String
deriving DecidableEq, Repr

/-- The parsed `args` namespace: validated input path and model name. -/
structure Args where
  input_path : FPath
  model_name : ModelName
deriving DecidableEq, Repr

/-- Lines 40-48, `file_exists`: the argparse `type=` validator for
`input_path`.  Returns the path if the file exists; otherwise raises
`ArgumentTypeError`, which argparse turns into `sys.exit(2)`. -/
def file_exists (fs : List FPath) (path : FPath) : Except Nat FPath :=
  if path ∈ fs then Except.ok path else Except.error 2

/-- Lines 94-116, `parser.parse_args()`: validate the input path with
`file_exists` and the `--model` value against `choices`; any argparse
failure exits the process with status 2.  When `--model` is omitted the
default `"DeepFilterNet2"` (line 106) applies. -/
def parse_args (fs : List FPath) (cli : Cli) : Except Nat Args :=
  match file_exists fs cli.input_path with
  | Except.error c => Except.error c
  | Except.ok ip =>
    match cli.model_arg with
    | none => Except.ok { input_path := ip, model_name := ModelName.DeepFilterNet2 }
    | some s =>
      match parseModel s with
      | some m => Except.ok { input_path := ip, model_name := m }
      | none => Except.error 2

/-- Line 141: `original_sr = -1` when probing raised, else the probed rate. -/
def original_sr (env : Env) : Int :=
  match env.probedSr with
  | some sr => sr
  | none => -1

/-- State at the end of the `try` block of `main` (lines 129-174): whether
it completed without an exception, the filesystem, the effect trace, the
`temp_audio_path` variable, and bookkeeping on which stages ran:
whether `init_df` was called, whether the sample rate was probed, whether
`resample_with_ffmpeg` was called, and the `(path, sr)` arguments of the
`load_audio` call if it was reached. -/
structure TryOut where
  ok : Bool
  fs : List FPath
  trace : List Effect
  temp_audio_path : Option FPath
  initDfCalled : Bool
  probed : Bool
  resampleCalled : Bool
  loadedCall : Option (FPath × Nat)
deriving DecidableEq, Repr

/-- State after lines 143-155 of `main`: the `audio_to_load` and
`temp_audio_path` variables, the filesystem, the effects so far, and
whether `resample_with_ffmpeg` was called. -/
structure StepOut where
  audio_to_load : FPath
  temp_audio_path : Option FPath
  fs : List FPath
  trace : List Effect
  resampleCalled : Bool
deriving DecidableEq, Repr

/-- Lines 143-155 of `main`: `audio_to_load = input_path`; if the probed
(or unknown) rate differs from the model's rate, call
`resample_with_ffmpeg`; on success both `audio_to_load` and
`temp_audio_path` become the returned temp path, on `None` the original
input stays and the library's own resampling will happen at load time. -/
def resampleStep (env : Env) (fs0 : List FPath) (input_path : FPath)
    (target_sr : Nat) : StepOut :=
  if original_sr env ≠ (target_sr : Int) then
    let r := resample_with_ffmpeg env fs0 input_path target_sr
    match r.ret with
    | some resampled_path =>
      { audio_to_load := resampled_path, temp_audio_path := some resampled_path,
        fs := r.fs, trace := r.trace, resampleCalled := true }
    | none =>
      { audio_to_load := input_path, temp_audio_path := none,
        fs := r.fs, trace := r.trace, resampleCalled := true }
  else
    { audio_to_load := input_path, temp_audio_path := none,
      fs := fs0, trace := [], resampleCalled := false }

/-- Lines 129-174, the body of the `try` block: `init_df` (line 132), the
sample-rate probe (lines 136-141), the conditional resampling (lines
143-155, `resampleStep`), `load_audio` at `df_state.sr()` (line 160),
`enhance` (line 166) and `save_audio` to `output_path` (line 171).  Any
raising call makes the block end with `ok := false` (the `except` at line
175 then prints and exits 1). -/
def tryBody (env : Env) (fs0 : List FPath) (input_path output_path : FPath) : TryOut :=
  match env.initDfSr with
  | none =>
    { ok := false, fs := fs0, trace := [], temp_audio_path := none,
      initDfCalled := true, probed := false, resampleCalled := false, loadedCall := none }
  | some target_sr =>
    let s := resampleStep env fs0 input_path target_sr
    if env.loadOk then
      if env.enhanceOk then
        if env.saveOk then
          { ok := true, fs := output_path :: s.fs,
            trace := s.trace ++ [Effect.write output_path],
            temp_audio_path := s.temp_audio_path, initDfCalled := true, probed := true,
            resampleCalled := s.resampleCalled,
            loadedCall := some (s.audio_to_load, target_sr) }
        else
          { ok := false, fs := s.fs, trace := s.trace,
            temp_audio_path := s.temp_audio_path, initDfCalled := true, probed := true,
            resampleCalled := s.resampleCalled,
            loadedCall := some (s.audio_to_load, target_sr) }
      else
        { ok := false, fs := s.fs, trace := s.trace,
          temp_audio_path := s.temp_audio_path, initDfCalled := true, probed := true,
          resampleCalled := s.resampleCalled,
          loadedCall := some (s.audio_to_load, target_sr) }
    else
      { ok := false, fs := s.fs, trace := s.trace,
        temp_audio_path := s.temp_audio_path, initDfCalled := true, probed := true,
        resampleCalled := s.resampleCalled,
        loadedCall := some (s.audio_to_load, target_sr) }

/-- Lines 179-183, the `finally` block: if `temp_audio_path` is set and the
file exists, `os.remove` it. -/
def finallyCleanup (fs : List FPath) (trace : List Effect) (temp : Option FPath) :
    List FPath × List Effect :=
  match temp with
  | none => (fs, trace)
  | some p =>
    if p ∈ fs then (removeFile fs p, trace ++ [Effect.remove p])
    else (fs, trace)

/-- The observable outcome of one run of the script: the process exit code,
the final filesystem, the effect trace, and the bookkeeping carried out of
the `try` block. -/
structure MainResult where
  exit : Nat
  fs : List FPath
  trace : List Effect
  parsed : Option Args
  outputPathUsed : Option FPath
  initDfCalled : Bool
  probed : Bool
  resampleCalled : Bool
  loadedCall : Option (FPath × Nat)
  tempAudioPath : Option FPath
deriving DecidableEq, Repr

/-- Lines 93-183, `main()`: parse the arguments (argparse exits 2 on a
validation failure, before anything else runs), compute `output_path`
(line 121), run the `try` block, run the `finally` cleanup on both the
success and the exception path (`sys.exit` raises `SystemExit`, so
`finally` still executes), and exit 1 if the `try` block raised, 0 on
success. -/
def main (env : Env) (fs0 : List FPath) (cli : Cli) : MainResult :=
  match parse_args fs0 cli with
  | Except.error c =>
    { exit := c, fs := fs0, trace := [], parsed := none, outputPathUsed := none,
      initDfCalled := false, probed := false, resampleCalled := false,
      loadedCall := none, tempAudioPath := none }
  | Except.ok args =>
    let input_path := args.input_path
    let output_path := outputPathOf input_path
    let t := tryBody env fs0 input_path output_path
    let cleaned := finallyCleanup t.fs t.trace t.temp_audio_path
    { exit := if t.ok then 0 else 1,
      fs := cleaned.1, trace := cleaned.2,
      parsed := some args, outputPathUsed := some output_path,
      initDfCalled := t.initDfCalled, probed := t.probed,
      resampleCalled := t.resampleCalled, loadedCall := t.loadedCall,
      tempAudioPath := t.temp_audio_path }

/-- The whole pipeline after parsing succeeds: every external call
succeeded.  Exactly then does the script reach line 173 and return
normally. -/
def pipelineOk (env : Env) : Bool :=
  env.initDfSr.isSome && env.loadOk && env.enhanceOk && env.saveOk

/-- The spec's description of the output path name:
`<stem>_denoise_DeepFilterNet<ext>`. -/
def spec_output_name (ip : FPath) : String :=
  ip.stem ++ "_denoise_DeepFilterNet" ++ ip.suffix

/-- A sample input file path. -/
def ipSample : FPath := { parent := "/audio", stem := "clip", suffix := ".wav" }

/-- A sample command line: `ipSample`, `--model` omitted. -/
def cliSample : Cli := { input_path := ipSample, model_arg := none }

/-- The parse of `cliSample`: the default model applies. -/
def argsSample : Args :=
  { input_path := ipSample, model_name := ModelName.DeepFilterNet2 }

/-- An execution oracle in which every external call succeeds and the
probed rate 44100 differs from the model rate 48000, so the ffmpeg
resampling path is taken and succeeds. -/
def envAllOk : Env :=
  { ffmpegAvailable := true, tempDir := "/tmp", tempStem := "tmpabc",
    ffmpegRunOk := true, probedSr := some 44100, initDfSr := some 48000,
    loadOk := true, enhanceOk := true, saveOk := true }

/-- Like `envAllOk` but the ffmpeg resampling subprocess fails. -/
def envRunFail : Env := { envAllOk with ffmpegRunOk := false }

/-- Like `envAllOk` but the ffmpeg availability check fails. -/
def envNoFfmpeg : Env := { envAllOk with ffmpegAvailable := false }

/-- Like `envAllOk` but `torchaudio.info` raises, so the rate is unknown. -/
def envProbeFail : Env := { envAllOk with probedSr := none }

/-- A command line with a `--model` value outside the `choices` list. -/
def cliBadModel : Cli := { input_path := ipSample, model_arg := some "DeepFilterNet9" }

theorem mem_removeFile {fs : List FPath} {p q : FPath} :
    q ∈ removeFile fs p ↔ q ∈ fs ∧ q ≠ p := by
  simp [removeFile]

theorem not_mem_removeFile_self (fs : List FPath) (p : FPath) :
    p ∉ removeFile fs p := by
  simp [removeFile]

theorem finallyCleanup_some_not_mem (fs : List FPath) (tr : List Effect) (p : FPath) :
    p ∉ (finallyCleanup fs tr (some p)).1 := by
  by_cases h : p ∈ fs <;> simp [finallyCleanup, h, removeFile]

theorem parse_args_ok_input {fs0 : List FPath} {cli : Cli} {a : Args}
    (h : parse_args fs0 cli = Except.ok a) :
    a.input_path = cli.input_path ∧ cli.input_path ∈ fs0 := by
  by_cases hm : cli.input_path ∈ fs0
  · refine ⟨?_, hm⟩
    cases hc : cli.model_arg with
    | none =>
      simp only [parse_args, file_exists, if_pos hm, hc, Except.ok.injEq] at h
      subst h
      rfl
    | some s =>
      cases hpm : parseModel s with
      | none => simp only [parse_args, file_exists, if_pos hm, hc, hpm] at h; simp at h
      | some m =>
        simp only [parse_args, file_exists, if_pos hm, hc, hpm, Except.ok.injEq] at h
        subst h
        rfl
  · simp only [parse_args, file_exists, if_neg hm] at h
    simp at h

theorem parse_args_error_code {fs0 : List FPath} {cli : Cli} {c : Nat}
    (h : parse_args fs0 cli = Except.error c) : c = 2 := by
  by_cases hm : cli.input_path ∈ fs0
  · cases hc : cli.model_arg with
    | none =>
      simp only [parse_args, file_exists, if_pos hm, hc] at h
      simp at h
    | some s =>
      cases hpm : parseModel s with
      | none =>
        simp only [parse_args, file_exists, if_pos hm, hc, hpm, Except.error.injEq] at h
        omega
      | some m =>
        simp only [parse_args, file_exists, if_pos hm, hc, hpm] at h
        simp at h
  · simp only [parse_args, file_exists, if_neg hm, Except.error.injEq] at h
    omega

theorem parseModel_eq_none_of_not_mem (s : String) (h : s ∉ modelChoices) :
    parseModel s = none := by
  unfold parseModel
  split <;> simp_all [modelChoices]

theorem resample_unavailable (env : Env) (fs0 : List FPath) (i : FPath) (sr : Nat)
    (h : env.ffmpegAvailable = false) :
    resample_with_ffmpeg env fs0 i sr = { ret := none, fs := fs0, trace := [] } := by
  simp [resample_with_ffmpeg, h]

theorem resample_run_ok (env : Env) (fs0 : List FPath) (i : FPath) (sr : Nat)
    (ha : env.ffmpegAvailable = true) (hr : env.ffmpegRunOk = true) :
    resample_with_ffmpeg env fs0 i sr =
      { ret := some (mkTemp env i), fs := mkTemp env i :: fs0,
        trace := [Effect.write (mkTemp env i), Effect.write (mkTemp env i)] } := by
  simp [resample_with_ffmpeg, ha, hr]

theorem resample_run_fail (env : Env) (fs0 : List FPath) (i : FPath) (sr : Nat)
    (ha : env.ffmpegAvailable = true) (hr : env.ffmpegRunOk = false) :
    resample_with_ffmpeg env fs0 i sr =
      { ret := none, fs := removeFile (mkTemp env i :: fs0) (mkTemp env i),
        trace := [Effect.write (mkTemp env i), Effect.write (mkTemp env i),
                  Effect.remove (mkTemp env i)] } := by
  simp [resample_with_ffmpeg, ha, hr]

theorem resample_ret_mkTemp {env : Env} {fs0 : List FPath} {i : FPath} {sr : Nat} {rp : FPath}
    (h : (resample_with_ffmpeg env fs0 i sr).ret = some rp) : rp = mkTemp env i := by
  cases ha : env.ffmpegAvailable <;> cases hr : env.ffmpegRunOk <;>
    simp [resample_with_ffmpeg, ha, hr] at h
  exact h.symm

theorem resampleStep_eq_rate (env : Env) (fs0 : List FPath) (i : FPath) (sr : Nat)
    (h : original_sr env = (sr : Int)) :
    resampleStep env fs0 i sr =
      { audio_to_load := i, temp_audio_path := none, fs := fs0, trace := [],
        resampleCalled := false } := by
  simp [resampleStep, h]

theorem resampleStep_ne_some (env : Env) (fs0 : List FPath) (i : FPath) (sr : Nat) (rp : FPath)
    (h : original_sr env ≠ (sr : Int))
    (hr : (resample_with_ffmpeg env fs0 i sr).ret = some rp) :
    resampleStep env fs0 i sr =
      { audio_to_load := rp, temp_audio_path := some rp,
        fs := (resample_with_ffmpeg env fs0 i sr).fs,
        trace := (resample_with_ffmpeg env fs0 i sr).trace, resampleCalled := true } := by
  simp [resampleStep, h, hr]

theorem resampleStep_ne_none (env : Env) (fs0 : List FPath) (i : FPath) (sr : Nat)
    (h : original_sr env ≠ (sr : Int))
    (hr : (resample_with_ffmpeg env fs0 i sr).ret = none) :
    resampleStep env fs0 i sr =
      { audio_to_load := i, temp_audio_path := none,
        fs := (resample_with_ffmpeg env fs0 i sr).fs,
        trace := (resample_with_ffmpeg env fs0 i sr).trace, resampleCalled := true } := by
  simp [resampleStep, h, hr]

theorem tryBody_initDf_fail (env : Env) (fs0 : List FPath) (i o : FPath)
    (h : env.initDfSr = none) :
    tryBody env fs0 i o =
      { ok := false, fs := fs0, trace := [], temp_audio_path := none,
        initDfCalled := true, probed := false, resampleCalled := false,
        loadedCall := none } := by
  simp [tryBody, h]

theorem tryBody_ok_eq (env : Env) (fs0 : List FPath) (i o : FPath) :
    (tryBody env fs0 i o).ok = pipelineOk env := by
  cases h : env.initDfSr with
  | none => simp [tryBody, pipelineOk, h]
  | some sr =>
    cases hl : env.loadOk <;> cases he : env.enhanceOk <;> cases hs : env.saveOk <;>
      simp [tryBody, pipelineOk, h, hl, he, hs]

theorem tryBody_fields (env : Env) (fs0 : List FPath) (i o : FPath) (sr : Nat)
    (h : env.initDfSr = some sr) :
    (tryBody env fs0 i o).temp_audio_path = (resampleStep env fs0 i sr).temp_audio_path ∧
    (tryBody env fs0 i o).resampleCalled = (resampleStep env fs0 i sr).resampleCalled ∧
    (tryBody env fs0 i o).loadedCall = some ((resampleStep env fs0 i sr).audio_to_load, sr) ∧
    (tryBody env fs0 i o).initDfCalled = true ∧
    (tryBody env fs0 i o).probed = true := by
  cases hl : env.loadOk <;> cases he : env.enhanceOk <;> cases hs : env.saveOk <;>
    simp [tryBody, h, hl, he, hs]

theorem tryBody_fs_trace (env : Env) (fs0 : List FPath) (i o : FPath) (sr : Nat)
    (h : env.initDfSr = some sr) :
    ((tryBody env fs0 i o).fs = (resampleStep env fs0 i sr).fs ∧
      (tryBody env fs0 i o).trace = (resampleStep env fs0 i sr).trace) ∨
    ((tryBody env fs0 i o).fs = o :: (resampleStep env fs0 i sr).fs ∧
      (tryBody env fs0 i o).trace =
        (resampleStep env fs0 i sr).trace ++ [Effect.write o]) := by
  cases hl : env.loadOk <;> cases he : env.enhanceOk <;> cases hs : env.saveOk <;>
    simp [tryBody, h, hl, he, hs]

theorem main_parse_error {env : Env} {fs0 : List FPath} {cli : Cli} {c : Nat}
    (h : parse_args fs0 cli = Except.error c) :
    main env fs0 cli =
      { exit := c, fs := fs0, trace := [], parsed := none, outputPathUsed := none,
        initDfCalled := false, probed := false, resampleCalled := false,
        loadedCall := none, tempAudioPath := none } := by
  simp [main, h]

theorem main_parse_ok {env : Env} {fs0 : List FPath} {cli : Cli} {a : Args}
    (h : parse_args fs0 cli = Except.ok a) :
    main env fs0 cli =
      { exit := if (tryBody env fs0 a.input_path (outputPathOf a.input_path)).ok then 0 else 1,
        fs := (finallyCleanup (tryBody env fs0 a.input_path (outputPathOf a.input_path)).fs
                (tryBody env fs0 a.input_path (outputPathOf a.input_path)).trace
                (tryBody env fs0 a.input_path (outputPathOf a.input_path)).temp_audio_path).1,
        trace := (finallyCleanup (tryBody env fs0 a.input_path (outputPathOf a.input_path)).fs
                (tryBody env fs0 a.input_path (outputPathOf a.input_path)).trace
                (tryBody env fs0 a.input_path (outputPathOf a.input_path)).temp_audio_path).2,
        parsed := some a,
        outputPathUsed := some (outputPathOf a.input_path),
        initDfCalled := (tryBody env fs0 a.input_path (outputPathOf a.input_path)).initDfCalled,
        probed := (tryBody env fs0 a.input_path (outputPathOf a.input_path)).probed,
        resampleCalled := (tryBody env fs0 a.input_path (outputPathOf a.input_path)).resampleCalled,
        loadedCall := (tryBody env fs0 a.input_path (outputPathOf a.input_path)).loadedCall,
        tempAudioPath := (tryBody env fs0 a.input_path (outputPathOf a.input_path)).temp_audio_path } := by
  simp [main, h]

theorem resampleStep_called (env : Env) (fs0 : List FPath) (i : FPath) (sr : Nat) :
    (resampleStep env fs0 i sr).resampleCalled = true ↔ original_sr env ≠ (sr : Int) := by
  by_cases h : original_sr env = (sr : Int)
  · rw [resampleStep_eq_rate env fs0 i sr h]
    simp [h]
  · cases hr : (resample_with_ffmpeg env fs0 i sr).ret with
    | none => rw [resampleStep_ne_none env fs0 i sr h hr]; simp [h]
    | some rp => rw [resampleStep_ne_some env fs0 i sr rp h hr]; simp [h]

theorem outputPathOf_ne_self (ip : FPath) : outputPathOf ip ≠ ip := by
  intro h
  have hstem : (outputPathOf ip).stem = ip.stem := by rw [h]
  have hlen := congrArg String.length hstem
  simp only [outputPathOf, String.length_append] at hlen
  have h22 : ("_denoise_DeepFilterNet" : String).length = 22 := by decide
  omega

theorem resample_trace_events (env : Env) (fs0 : List FPath) (i : FPath) (sr : Nat) :
    ∀ e ∈ (resample_with_ffmpeg env fs0 i sr).trace,
      e = Effect.write (mkTemp env i) ∨ e = Effect.remove (mkTemp env i) := by
  intro e he
  cases ha : env.ffmpegAvailable with
  | false =>
    rw [resample_unavailable env fs0 i sr ha] at he
    simp at he
  | true =>
    cases hr : env.ffmpegRunOk with
    | false =>
      rw [resample_run_fail env fs0 i sr ha hr] at he
      simp at he
      tauto
    | true =>
      rw [resample_run_ok env fs0 i sr ha hr] at he
      simp at he
      tauto

theorem resample_fs_mem (env : Env) (fs0 : List FPath) (i : FPath) (sr : Nat) (q : FPath)
    (hq : q ≠ mkTemp env i) (hm : q ∈ fs0) :
    q ∈ (resample_with_ffmpeg env fs0 i sr).fs := by
  cases ha : env.ffmpegAvailable with
  | false =>
    rw [resample_unavailable env fs0 i sr ha]
    exact hm
  | true =>
    cases hr : env.ffmpegRunOk with
    | false =>
      rw [resample_run_fail env fs0 i sr ha hr]
      exact mem_removeFile.mpr ⟨List.mem_cons_of_mem _ hm, hq⟩
    | true =>
      rw [resample_run_ok env fs0 i sr ha hr]
      exact List.mem_cons_of_mem _ hm

theorem resampleStep_trace_events (env : Env) (fs0 : List FPath) (i : FPath) (sr : Nat) :
    ∀ e ∈ (resampleStep env fs0 i sr).trace,
      e = Effect.write (mkTemp env i) ∨ e = Effect.remove (mkTemp env i) := by
  intro e he
  by_cases h : original_sr env = (sr : Int)
  · rw [resampleStep_eq_rate env fs0 i sr h] at he
    simp at he
  · cases hret : (resample_with_ffmpeg env fs0 i sr).ret with
    | none =>
      rw [resampleStep_ne_none env fs0 i sr h hret] at he
      exact resample_trace_events env fs0 i sr e he
    | some rp =>
      rw [resampleStep_ne_some env fs0 i sr rp h hret] at he
      exact resample_trace_events env fs0 i sr e he

theorem resampleStep_temp (env : Env) (fs0 : List FPath) (i : FPath) (sr : Nat) (p : FPath)
    (h : (resampleStep env fs0 i sr).temp_audio_path = some p) : p = mkTemp env i := by
  by_cases hsr : original_sr env = (sr : Int)
  · rw [resampleStep_eq_rate env fs0 i sr hsr] at h
    simp at h
  · cases hret : (resample_with_ffmpeg env fs0 i sr).ret with
    | none =>
      rw [resampleStep_ne_none env fs0 i sr hsr hret] at h
      simp at h
    | some rp =>
      rw [resampleStep_ne_some env fs0 i sr rp hsr hret] at h
      simp at h
      rw [← h]
      exact resample_ret_mkTemp hret

theorem resampleStep_fs_mem (env : Env) (fs0 : List FPath) (i : FPath) (sr : Nat) (q : FPath)
    (hq : q ≠ mkTemp env i) (hm : q ∈ fs0) :
    q ∈ (resampleStep env fs0 i sr).fs := by
  by_cases h : original_sr env = (sr : Int)
  · rw [resampleStep_eq_rate env fs0 i sr h]
    exact hm
  · cases hret : (resample_with_ffmpeg env fs0 i sr).ret with
    | none =>
      rw [resampleStep_ne_none env fs0 i sr h hret]
      exact resample_fs_mem env fs0 i sr q hq hm
    | some rp =>
      rw [resampleStep_ne_some env fs0 i sr rp h hret]
      exact resample_fs_mem env fs0 i sr q hq hm

theorem tryBody_trace_events (env : Env) (fs0 : List FPath) (i o : FPath) (sr : Nat)
    (h : env.initDfSr = some sr) :
    ∀ e ∈ (tryBody env fs0 i o).trace,
      e = Effect.write (mkTemp env i) ∨ e = Effect.remove (mkTemp env i) ∨
      e = Effect.write o := by
  intro e he
  rcases tryBody_fs_trace env fs0 i o sr h with ⟨hfs, htr⟩ | ⟨hfs, htr⟩
  · rw [htr] at he
    rcases resampleStep_trace_events env fs0 i sr e he with h1 | h1
    · exact Or.inl h1
    · exact Or.inr (Or.inl h1)
  · rw [htr] at he
    rcases List.mem_append.mp he with h1 | h1
    · rcases resampleStep_trace_events env fs0 i sr e h1 with h2 | h2
      · exact Or.inl h2
      · exact Or.inr (Or.inl h2)
    · simp at h1
      exact Or.inr (Or.inr h1)

theorem finallyCleanup_mem (fs : List FPath) (tr : List Effect) (temp : Option FPath)
    (q : FPath) (h : ∀ p, temp = some p → q ≠ p) (hm : q ∈ fs) :
    q ∈ (finallyCleanup fs tr temp).1 := by
  cases temp with
  | none => exact hm
  | some p =>
    by_cases hp : p ∈ fs
    · simp only [finallyCleanup, if_pos hp]
      exact mem_removeFile.mpr ⟨hm, h p rfl⟩
    · simp only [finallyCleanup, if_neg hp]
      exact hm

theorem main_trace_events (env : Env) (fs0 : List FPath) (cli : Cli) :
    ∀ e ∈ (main env fs0 cli).trace,
      e = Effect.write (mkTemp env cli.input_path) ∨
      e = Effect.remove (mkTemp env cli.input_path) ∨
      e = Effect.write (outputPathOf cli.input_path) := by
  intro e he
  cases hparse : parse_args fs0 cli with
  | error c =>
    rw [main_parse_error hparse] at he
    simp at he
  | ok a =>
    have hin := (parse_args_ok_input hparse).1
    rw [main_parse_ok hparse] at he
    dsimp only at he
    rw [hin] at he
    cases hsr : env.initDfSr with
    | none =>
      rw [tryBody_initDf_fail env fs0 _ _ hsr] at he
      simp [finallyCleanup] at he
    | some sr =>
      set t := tryBody env fs0 cli.input_path (outputPathOf cli.input_path) with ht
      cases htemp : t.temp_audio_path with
      | none =>
        rw [htemp] at he
        simp only [finallyCleanup] at he
        rw [ht] at he
        exact tryBody_trace_events env fs0 cli.input_path (outputPathOf cli.input_path) sr hsr e he
      | some p =>
        have hp : p = mkTemp env cli.input_path := by
          have hfield := (tryBody_fields env fs0 cli.input_path (outputPathOf cli.input_path) sr hsr).1
          rw [← ht, htemp] at hfield
          exact resampleStep_temp env fs0 cli.input_path sr p hfield.symm
        rw [htemp] at he
        by_cases hmem : p ∈ t.fs
        · simp only [finallyCleanup, if_pos hmem, List.mem_append] at he
          rcases he with h1 | h1
          · rw [ht] at h1
            exact tryBody_trace_events env fs0 cli.input_path (outputPathOf cli.input_path) sr hsr e h1
          · simp at h1
            rw [h1, hp]
            exact Or.inr (Or.inl rfl)
        · simp only [finallyCleanup, if_neg hmem] at he
          rw [ht] at he
          exact tryBody_trace_events env fs0 cli.input_path (outputPathOf cli.input_path) sr hsr e he

theorem main_fs_mem (env : Env) (fs0 : List FPath) (cli : Cli) (q : FPath)
    (hq : q ≠ mkTemp env cli.input_path) (hm : q ∈ fs0) :
    q ∈ (main env fs0 cli).fs := by
  cases hparse : parse_args fs0 cli with
  | error c =>
    rw [main_parse_error hparse]
    exact hm
  | ok a =>
    have hin := (parse_args_ok_input hparse).1
    rw [main_parse_ok hparse]
    dsimp only
    rw [hin]
    cases hsr : env.initDfSr with
    | none =>
      rw [tryBody_initDf_fail env fs0 _ _ hsr]
      exact hm
    | some sr =>
      set t := tryBody env fs0 cli.input_path (outputPathOf cli.input_path) with ht
      have htfs : q ∈ t.fs := by
        have hstep := resampleStep_fs_mem env fs0 cli.input_path sr q hq hm
        rcases tryBody_fs_trace env fs0 cli.input_path (outputPathOf cli.input_path) sr hsr
          with ⟨hfs, _⟩ | ⟨hfs, _⟩
        · rw [ht, hfs]; exact hstep
        · rw [ht, hfs]; exact List.mem_cons_of_mem _ hstep
      refine finallyCleanup_mem t.fs t.trace t.temp_audio_path q ?_ htfs
      intro p hpt
      have hp : p = mkTemp env cli.input_path := by
        have hfield := (tryBody_fields env fs0 cli.input_path (outputPathOf cli.input_path) sr hsr).1
        rw [← ht, hpt] at hfield
        exact resampleStep_temp env fs0 cli.input_path sr p hfield.symm
      rw [hp]
      exact hq

/-- C1: any temporary resampled file is deleted on every exit path.  First
part: whenever a run of `main` ends with the `temp_audio_path` variable set
to some path `p` (which happens exactly when `resample_with_ffmpeg`
returned a temp path), `p` is not in the final filesystem, whether the
pipeline succeeded or raised.  Second part: when the ffmpeg subprocess
itself fails after the temp file was created, `resample_with_ffmpeg`
returns `None` with the temp file removed (an `os.remove` of it is in its
trace). -/
theorem C1_temp_file_deleted :
    (∀ (env : Env) (fs0 : List FPath) (cli : Cli) (p : FPath),
        (main env fs0 cli).tempAudioPath = some p →
        p ∉ (main env fs0 cli).fs) ∧
    (∀ (env : Env) (fs0 : List FPath) (i : FPath) (sr : Nat),
        env.ffmpegAvailable = true → env.ffmpegRunOk = false →
        (resample_with_ffmpeg env fs0 i sr).ret = none ∧
        mkTemp env i ∉ (resample_with_ffmpeg env fs0 i sr).fs ∧
        Effect.remove (mkTemp env i) ∈ (resample_with_ffmpeg env fs0 i sr).trace) := by
  constructor
  · intro env fs0 cli p hp
    cases hparse : parse_args fs0 cli with
    | error c =>
      rw [main_parse_error hparse] at hp
      simp at hp
    | ok a =>
      rw [main_parse_ok hparse] at hp ⊢
      dsimp only at hp ⊢
      rw [hp]
      exact finallyCleanup_some_not_mem _ _ p
  · intro env fs0 i sr ha hr
    rw [resample_run_fail env fs0 i sr ha hr]
    exact ⟨rfl, not_mem_removeFile_self _ _, by simp⟩

/-- Witness for `C1_temp_file_deleted`: a concrete run in which the temp
file was produced, and a concrete ffmpeg-subprocess failure. -/
theorem C1_witness :
    mkTemp envAllOk ipSample ∉ (main envAllOk [ipSample] cliSample).fs ∧
    (resample_with_ffmpeg envRunFail [ipSample] ipSample 48000).ret = none := by
  constructor
  · exact C1_temp_file_deleted.1 envAllOk [ipSample] cliSample (mkTemp envAllOk ipSample)
      (by decide)
  · exact (C1_temp_file_deleted.2 envRunFail [ipSample] ipSample 48000 (by decide)
      (by decide)).1

/-- C10: when the ffmpeg executable is absent or its version check fails
(both caught at line 64), `resample_with_ffmpeg` returns `None` without
creating any temporary file: the filesystem is returned unchanged and no
effect is performed. -/
theorem C10_unavailable_leaves_fs_unchanged :
    ∀ (env : Env) (fs0 : List FPath) (i : FPath) (sr : Nat),
      env.ffmpegAvailable = false →
      resample_with_ffmpeg env fs0 i sr = { ret := none, fs := fs0, trace := [] } := by
  intro env fs0 i sr h
  exact resample_unavailable env fs0 i sr h

/-- Witness for `C10_unavailable_leaves_fs_unchanged` at a concrete
environment with ffmpeg unavailable. -/
theorem C10_witness :
    resample_with_ffmpeg envNoFfmpeg [ipSample] ipSample 48000 =
      { ret := none, fs := [ipSample], trace := [] } :=
  C10_unavailable_leaves_fs_unchanged envNoFfmpeg [ipSample] ipSample 48000 rfl

/-- C2: for every run whose arguments parse, the output path used by `main`
is determined by the input path alone (so it is the same for every model
variant): it lies in the input's parent directory and its file name is the
input's stem, then the fixed suffix `_denoise_DeepFilterNet`, then the
input's original extension. -/
theorem C2_output_path :
    ∀ (env : Env) (fs0 : List FPath) (cli : Cli) (a : Args),
      parse_args fs0 cli = Except.ok a →
      (main env fs0 cli).outputPathUsed = some (outputPathOf cli.input_path) ∧
      (outputPathOf cli.input_path).parent = cli.input_path.parent ∧
      FPath.fileName (outputPathOf cli.input_path) = spec_output_name cli.input_path := by
  intro env fs0 cli a h
  refine ⟨?_, rfl, rfl⟩
  rw [main_parse_ok h]
  dsimp only
  rw [(parse_args_ok_input h).1]

/-- Witness for `C2_output_path` at a concrete run. -/
theorem C2_witness :
    (main envAllOk [ipSample] cliSample).outputPathUsed =
      some (outputPathOf ipSample) ∧
    (outputPathOf ipSample).parent = ipSample.parent ∧
    FPath.fileName (outputPathOf ipSample) = spec_output_name ipSample :=
  C2_output_path envAllOk [ipSample] cliSample argsSample rfl

/-- C3 counterexample: a run whose only error is a missing input file exits
with argparse's status 2 — an erroring run whose exit code is not 1,
contrary to the claim that every erroring run exits with code 1
(`file_exists` raises `ArgumentTypeError`, which argparse turns into
`sys.exit(2)` during `parse_args`, before the try/except that exits 1). -/
theorem C3_counterexample :
    (main envAllOk [] cliSample).exit ≠ 0 ∧ (main envAllOk [] cliSample).exit ≠ 1 := by
  decide

/-- C3 (amended): once argument parsing has succeeded, the run exits 0 when
every pipeline stage (model load, audio load, enhancement, save) succeeds
and 1 when any of them raises; argument-validation failures — including a
missing input file — instead exit with argparse's code 2. -/
theorem C3_exit_codes :
    ∀ (env : Env) (fs0 : List FPath) (cli : Cli),
      (∀ a, parse_args fs0 cli = Except.ok a →
        (main env fs0 cli).exit = if pipelineOk env then 0 else 1) ∧
      (∀ c, parse_args fs0 cli = Except.error c → (main env fs0 cli).exit = 2) := by
  intro env fs0 cli
  constructor
  · intro a h
    rw [main_parse_ok h]
    dsimp only
    rw [tryBody_ok_eq]
  · intro c h
    rw [main_parse_error h]
    dsimp only
    exact parse_args_error_code h

/-- Witness for `C3_exit_codes`: a concrete successful run and a concrete
missing-file run. -/
theorem C3_witness :
    (main envAllOk [ipSample] cliSample).exit = (if pipelineOk envAllOk then 0 else 1) ∧
    (main envAllOk [] cliSample).exit = 2 := by
  constructor
  · exact (C3_exit_codes envAllOk [ipSample] cliSample).1 argsSample rfl
  · exact (C3_exit_codes envAllOk [] cliSample).2 2 rfl

/-- C4: when the input path does not name an existing file, argument
parsing fails with exit code 2 (nonzero) before the model is loaded:
`init_df` is never called and the filesystem is untouched, so no output or
temporary file is created (the effect trace is empty). -/
theorem C4_missing_input_fails_early :
    ∀ (env : Env) (fs0 : List FPath) (cli : Cli),
      cli.input_path ∉ fs0 →
      (main env fs0 cli).exit = 2 ∧ (main env fs0 cli).exit ≠ 0 ∧
      (main env fs0 cli).initDfCalled = false ∧
      (main env fs0 cli).fs = fs0 ∧ (main env fs0 cli).trace = [] := by
  intro env fs0 cli h
  have hp : parse_args fs0 cli = Except.error 2 := by
    simp [parse_args, file_exists, h]
  rw [main_parse_error hp]
  exact ⟨rfl, by dsimp only; decide, rfl, rfl, rfl⟩

/-- Witness for `C4_missing_input_fails_early` on an empty filesystem. -/
theorem C4_witness :
    (main envAllOk [] cliSample).exit = 2 ∧ (main envAllOk [] cliSample).exit ≠ 0 ∧
    (main envAllOk [] cliSample).initDfCalled = false ∧
    (main envAllOk [] cliSample).fs = [] ∧ (main envAllOk [] cliSample).trace = [] :=
  C4_missing_input_fails_early envAllOk [] cliSample (by decide)

/-- C5: a `--model` value outside the `choices` list makes argument parsing
fail with exit code 2 before any processing: `init_df` is not called, the
sample rate is not probed, `resample_with_ffmpeg` is not called,
`load_audio` is not reached, and the filesystem is untouched.  When
`--model` is omitted, the parsed model is the default `DeepFilterNet2`. -/
theorem C5_model_choice_validation :
    (∀ (env : Env) (fs0 : List FPath) (cli : Cli) (s : String),
      cli.model_arg = some s → s ∉ modelChoices →
      (main env fs0 cli).exit = 2 ∧
      (main env fs0 cli).initDfCalled = false ∧
      (main env fs0 cli).probed = false ∧
      (main env fs0 cli).resampleCalled = false ∧
      (main env fs0 cli).loadedCall = none ∧
      (main env fs0 cli).fs = fs0 ∧
      (main env fs0 cli).trace = []) ∧
    (∀ (fs0 : List FPath) (cli : Cli) (a : Args),
      cli.model_arg = none → parse_args fs0 cli = Except.ok a →
      a.model_name = ModelName.DeepFilterNet2) := by
  constructor
  · intro env fs0 cli s hs hns
    have hpm : parseModel s = none := parseModel_eq_none_of_not_mem s hns
    have hp : parse_args fs0 cli = Except.error 2 := by
      by_cases hm : cli.input_path ∈ fs0 <;>
        simp [parse_args, file_exists, hm, hs, hpm]
    rw [main_parse_error hp]
    exact ⟨rfl, rfl, rfl, rfl, rfl, rfl, rfl⟩
  · intro fs0 cli a hc h
    by_cases hm : cli.input_path ∈ fs0
    · simp only [parse_args, file_exists, if_pos hm, hc, Except.ok.injEq] at h
      subst h
      rfl
    · simp only [parse_args, file_exists, if_neg hm] at h
      simp at h

/-- Witness for `C5_model_choice_validation`: a concrete rejected model
name and the concrete default when the option is omitted. -/
theorem C5_witness :
    (main envAllOk [ipSample] cliBadModel).exit = 2 ∧
    argsSample.model_name = ModelName.DeepFilterNet2 := by
  constructor
  · exact (C5_model_choice_validation.1 envAllOk [ipSample] cliBadModel "DeepFilterNet9"
      rfl (by decide)).1
  · exact C5_model_choice_validation.2 [ipSample] cliSample argsSample rfl rfl

/-- C6: external resampling is invoked exactly when the probed (or
unknown) rate differs from the model's required rate.  When the probed rate
equals the model's rate, `resample_with_ffmpeg` is not called and the
original input file is what `load_audio` receives; when the rates differ
and `resample_with_ffmpeg` returns a temp path, that temp path is what
`load_audio` receives. -/
theorem C6_resample_iff_rate_mismatch :
    ∀ (env : Env) (fs0 : List FPath) (cli : Cli) (a : Args) (sr : Nat),
      parse_args fs0 cli = Except.ok a → env.initDfSr = some sr →
      ((main env fs0 cli).resampleCalled = true ↔ original_sr env ≠ (sr : Int)) ∧
      (original_sr env = (sr : Int) →
        (main env fs0 cli).resampleCalled = false ∧
        (main env fs0 cli).loadedCall = some (cli.input_path, sr)) ∧
      (∀ rp, original_sr env ≠ (sr : Int) →
        (resample_with_ffmpeg env fs0 cli.input_path sr).ret = some rp →
        (main env fs0 cli).loadedCall = some (rp, sr)) := by
  intro env fs0 cli a sr hpa hsr
  have hin := (parse_args_ok_input hpa).1
  rw [main_parse_ok hpa]
  dsimp only
  rw [hin]
  have hf := tryBody_fields env fs0 cli.input_path (outputPathOf cli.input_path) sr hsr
  refine ⟨?_, ?_, ?_⟩
  · rw [hf.2.1]
    exact resampleStep_called env fs0 cli.input_path sr
  · intro he
    rw [hf.2.1, hf.2.2.1, resampleStep_eq_rate env fs0 cli.input_path sr he]
    exact ⟨rfl, rfl⟩
  · intro rp hne hret
    rw [hf.2.2.1, resampleStep_ne_some env fs0 cli.input_path sr rp hne hret]

/-- Witness for `C6_resample_iff_rate_mismatch` at a concrete run with a
44100 Hz input and a 48000 Hz model. -/
theorem C6_witness :
    ((main envAllOk [ipSample] cliSample).resampleCalled = true ↔
      original_sr envAllOk ≠ ((48000 : Nat) : Int)) ∧
    (main envAllOk [ipSample] cliSample).loadedCall =
      some (mkTemp envAllOk ipSample, 48000) := by
  have h := C6_resample_iff_rate_mismatch envAllOk [ipSample] cliSample argsSample 48000
    rfl rfl
  exact ⟨h.1, h.2.2 (mkTemp envAllOk ipSample) (by decide) rfl⟩

/-- C7: when probing the input's sample rate fails, the rate is recorded as
-1; since a sample rate is a natural number, -1 never equals the model's
required rate, so a resampling attempt is always forced. -/
theorem C7_probe_failure_forces_resample :
    ∀ (env : Env) (fs0 : List FPath) (cli : Cli) (a : Args) (sr : Nat),
      parse_args fs0 cli = Except.ok a → env.initDfSr = some sr →
      env.probedSr = none →
      original_sr env = -1 ∧ original_sr env ≠ (sr : Int) ∧
      (main env fs0 cli).resampleCalled = true := by
  intro env fs0 cli a sr hpa hsr hpr
  have h1 : original_sr env = -1 := by simp [original_sr, hpr]
  have hne : original_sr env ≠ (sr : Int) := by
    rw [h1]
    omega
  refine ⟨h1, hne, ?_⟩
  rw [main_parse_ok hpa]
  dsimp only
  have hf := tryBody_fields env fs0 a.input_path (outputPathOf a.input_path) sr hsr
  rw [hf.2.1]
  exact (resampleStep_called env fs0 a.input_path sr).mpr hne

/-- Witness for `C7_probe_failure_forces_resample` at a concrete run whose
probe raised. -/
theorem C7_witness :
    original_sr envProbeFail = -1 ∧
    original_sr envProbeFail ≠ ((48000 : Nat) : Int) ∧
    (main envProbeFail [ipSample] cliSample).resampleCalled = true :=
  C7_probe_failure_forces_resample envProbeFail [ipSample] cliSample argsSample 48000
    rfl rfl rfl

/-- C8: failure of the external resampling tool is non-fatal.  When the
rates differ and `resample_with_ffmpeg` returns `None` (ffmpeg absent, its
version check failing, or the subprocess failing), `load_audio` still runs
on the original input file at the model's required rate, and the run's exit
code is decided by the remaining pipeline stages, not forced to an abort. -/
theorem C8_resample_failure_nonfatal :
    ∀ (env : Env) (fs0 : List FPath) (cli : Cli) (a : Args) (sr : Nat),
      parse_args fs0 cli = Except.ok a → env.initDfSr = some sr →
      original_sr env ≠ (sr : Int) →
      (resample_with_ffmpeg env fs0 cli.input_path sr).ret = none →
      (main env fs0 cli).loadedCall = some (cli.input_path, sr) ∧
      (main env fs0 cli).exit =
        (if env.loadOk && env.enhanceOk && env.saveOk then 0 else 1) := by
  intro env fs0 cli a sr hpa hsr hne hret
  have hin := (parse_args_ok_input hpa).1
  rw [main_parse_ok hpa]
  dsimp only
  rw [hin]
  have hf := tryBody_fields env fs0 cli.input_path (outputPathOf cli.input_path) sr hsr
  constructor
  · rw [hf.2.2.1, resampleStep_ne_none env fs0 cli.input_path sr hne hret]
  · rw [tryBody_ok_eq]
    simp [pipelineOk, hsr]

/-- Witness for `C8_resample_failure_nonfatal`: ffmpeg unavailable, rates
44100 vs 48000, pipeline otherwise succeeding. -/
theorem C8_witness :
    (main envNoFfmpeg [ipSample] cliSample).loadedCall = some (ipSample, 48000) ∧
    (main envNoFfmpeg [ipSample] cliSample).exit =
      (if envNoFfmpeg.loadOk && envNoFfmpeg.enhanceOk && envNoFfmpeg.saveOk
        then 0 else 1) :=
  C8_resample_failure_nonfatal envNoFfmpeg [ipSample] cliSample argsSample 48000
    rfl rfl (by decide) rfl

/-- C9: the input file is never modified or deleted.  Every `os.remove` in
a run's trace targets the temporary path, every write targets the temporary
path or the derived output path, and — since the temp file has a fresh name
distinct from the input — no effect ever targets the input path, which
remains on the filesystem at exit if it was there at the start. -/
theorem C9_input_never_touched :
    ∀ (env : Env) (fs0 : List FPath) (cli : Cli),
      (∀ p, Effect.remove p ∈ (main env fs0 cli).trace →
        p = mkTemp env cli.input_path) ∧
      (∀ p, Effect.write p ∈ (main env fs0 cli).trace →
        p = mkTemp env cli.input_path ∨ p = outputPathOf cli.input_path) ∧
      (mkTemp env cli.input_path ≠ cli.input_path →
        Effect.remove cli.input_path ∉ (main env fs0 cli).trace ∧
        Effect.write cli.input_path ∉ (main env fs0 cli).trace ∧
        (cli.input_path ∈ fs0 → cli.input_path ∈ (main env fs0 cli).fs)) := by
  intro env fs0 cli
  have hrem : ∀ p, Effect.remove p ∈ (main env fs0 cli).trace →
      p = mkTemp env cli.input_path := by
    intro p hp
    rcases main_trace_events env fs0 cli _ hp with h | h | h
    · exact absurd h (by simp)
    · simpa using h
    · exact absurd h (by simp)
  have hwr : ∀ p, Effect.write p ∈ (main env fs0 cli).trace →
      p = mkTemp env cli.input_path ∨ p = outputPathOf cli.input_path := by
    intro p hp
    rcases main_trace_events env fs0 cli _ hp with h | h | h
    · exact Or.inl (by simpa using h)
    · exact absurd h (by simp)
    · exact Or.inr (by simpa using h)
  refine ⟨hrem, hwr, ?_⟩
  intro hne
  refine ⟨?_, ?_, ?_⟩
  · intro hmem
    exact hne (hrem cli.input_path hmem).symm
  · intro hmem
    rcases hwr cli.input_path hmem with h | h
    · exact hne h.symm
    · exact outputPathOf_ne_self cli.input_path h.symm
  · intro hmem
    exact main_fs_mem env fs0 cli cli.input_path (Ne.symm hne) hmem

/-- Witness for `C9_input_never_touched` at a concrete run: the output
write is accounted for, and the input file survives the run untouched. -/
theorem C9_witness :
    (outputPathOf ipSample = mkTemp envAllOk ipSample ∨
      outputPathOf ipSample = outputPathOf ipSample) ∧
    Effect.remove ipSample ∉ (main envAllOk [ipSample] cliSample).trace ∧
    Effect.write ipSample ∉ (main envAllOk [ipSample] cliSample).trace ∧
    ipSample ∈ (main envAllOk [ipSample] cliSample).fs := by
  have h := C9_input_never_touched envAllOk [ipSample] cliSample
  have h3 := h.2.2 (by decide)
  exact ⟨h.2.1 (outputPathOf ipSample) (by decide), h3.1, h3.2.1,
    h3.2.2 (by decide)⟩

end DenoiseDFN
